import Mathlib

/-!
Verification of the CSE investment-analysis pipeline.

The definitions below are a shallow embedding of the Python sources
`company_analyzer.py` and `app.py`: numeric fields become `Option ℚ`
(absent or None collapses to `none`), dictionary reads with a default of
0 become `pyVal`, and pandas dataframe operations become list
operations over structured records.
-/

/-- Python read `d.get(key, 0)`: a missing or None numeric field behaves as 0. -/
def pyVal (x : Option ℚ) : ℚ := x.getD 0

/-- Raw `reqSymbolInfo` fields used by `calculate_investment_metrics`. -/
structure SymbolInfo where
  lastTradedPrice : Option ℚ
  previousClose : Option ℚ
  ytdHiPrice : Option ℚ
  ytdLowPrice : Option ℚ
  p12HiPrice : Option ℚ
  p12LowPrice : Option ℚ
  marketCap : Option ℚ
  quantityIssued : Option ℚ
  ytdShareVolume : Option ℚ
  ytdTurnover : Option ℚ
deriving DecidableEq, Repr

/-- Raw `reqSymbolBetaInfo` fields. -/
structure BetaInfo where
  triASIBetaValue : Option ℚ
  betaValueSPSL : Option ℚ
deriving DecidableEq, Repr

/-- Risk buckets assigned by `calculate_investment_metrics`. -/
inductive RiskCategory where
  | highRisk
  | mediumRisk
  | lowRisk
  | veryLowRisk
deriving DecidableEq, Repr

/-- Threshold chain of the risk branch in `calculate_investment_metrics`
(beta > 1.5 high, then > 1.0 medium, then > 0.5 low, else very low). -/
def riskBucket (v : ℚ) : RiskCategory :=
  if v > 3/2 then RiskCategory.highRisk
  else if v > 1 then RiskCategory.mediumRisk
  else if v > 1/2 then RiskCategory.lowRisk
  else RiskCategory.veryLowRisk

/-- Output of `calculate_investment_metrics`: each metric is optional,
mirroring conditional insertion into the Python `metrics` dict. -/
structure Metrics where
  price_change_pct : Option ℚ
  ytd_volatility : Option ℚ
  position_in_ytd_range : Option ℚ
  p12_volatility : Option ℚ
  position_in_p12_range : Option ℚ
  book_value_per_share : Option ℚ
  avg_price_ytd : Option ℚ
  price_vs_ytd_avg : Option ℚ
  risk_category : Option RiskCategory
deriving DecidableEq, Repr

/-- Embedding of `CSE_InvestmentAnalyzer.calculate_investment_metrics`.
Python truthiness tests (`if last_price and prev_close:`) become
nonzero tests on the 0-defaulted values. -/
def calculate_investment_metrics (symbol_info : SymbolInfo) (beta_info : BetaInfo) : Metrics :=
  let last_price := pyVal symbol_info.lastTradedPrice
  let prev_close := pyVal symbol_info.previousClose
  let price_change_pct :=
    if last_price ≠ 0 ∧ prev_close ≠ 0 then
      some (((last_price - prev_close) / prev_close) * 100)
    else none
  let ytd_high := pyVal symbol_info.ytdHiPrice
  let ytd_low := pyVal symbol_info.ytdLowPrice
  let p12_high := pyVal symbol_info.p12HiPrice
  let p12_low := pyVal symbol_info.p12LowPrice
  let ytd_volatility :=
    if ytd_high ≠ 0 ∧ ytd_low ≠ 0 ∧ ytd_high ≠ ytd_low then
      some (((ytd_high - ytd_low) / ytd_low) * 100)
    else none
  let position_in_ytd_range :=
    if (ytd_high ≠ 0 ∧ ytd_low ≠ 0 ∧ ytd_high ≠ ytd_low) ∧ last_price ≠ 0 then
      some (((last_price - ytd_low) / (ytd_high - ytd_low)) * 100)
    else none
  let p12_volatility :=
    if p12_high ≠ 0 ∧ p12_low ≠ 0 ∧ p12_high ≠ p12_low then
      some (((p12_high - p12_low) / p12_low) * 100)
    else none
  let position_in_p12_range :=
    if (p12_high ≠ 0 ∧ p12_low ≠ 0 ∧ p12_high ≠ p12_low) ∧ last_price ≠ 0 then
      some (((last_price - p12_low) / (p12_high - p12_low)) * 100)
    else none
  let market_cap := pyVal symbol_info.marketCap
  let quantity_issued := pyVal symbol_info.quantityIssued
  let book_value_per_share :=
    if market_cap ≠ 0 ∧ quantity_issued ≠ 0 then
      some (market_cap / quantity_issued)
    else none
  let ytd_volume := pyVal symbol_info.ytdShareVolume
  let ytd_turnover := pyVal symbol_info.ytdTurnover
  let avg_price_ytd :=
    if ytd_volume ≠ 0 ∧ ytd_turnover ≠ 0 then
      some (ytd_turnover / ytd_volume)
    else none
  let price_vs_ytd_avg :=
    match avg_price_ytd with
    | some a => if last_price ≠ 0 ∧ a ≠ 0 then some (((last_price - a) / a) * 100) else none
    | none => none
  let risk_category :=
    match beta_info.triASIBetaValue with
    | some v => if v ≠ 0 then some (riskBucket v) else none
    | none => none
  { price_change_pct := price_change_pct
    ytd_volatility := ytd_volatility
    position_in_ytd_range := position_in_ytd_range
    p12_volatility := p12_volatility
    position_in_p12_range := position_in_p12_range
    book_value_per_share := book_value_per_share
    avg_price_ytd := avg_price_ytd
    price_vs_ytd_avg := price_vs_ytd_avg
    risk_category := risk_category }

/-- Snapshot with every field absent. -/
def noInfo : SymbolInfo :=
  { lastTradedPrice := none, previousClose := none, ytdHiPrice := none, ytdLowPrice := none
    p12HiPrice := none, p12LowPrice := none, marketCap := none, quantityIssued := none
    ytdShareVolume := none, ytdTurnover := none }

/-- Beta record with both coefficients absent. -/
def noBeta : BetaInfo := { triASIBetaValue := none, betaValueSPSL := none }

/-- C1 counterexample: a snapshot whose beta coefficient is present with
value 0 gets no riskCategory at all, because the Python truthiness test
`if beta_asi:` treats a present 0.0 as missing; the claim demands the
VeryLowRisk bucket for every present beta value including 0. -/
theorem c1_counterexample :
    ¬ (∀ (s : SymbolInfo) (b : BetaInfo) (v : ℚ), b.triASIBetaValue = some v →
        (calculate_investment_metrics s b).risk_category = some (riskBucket v)) := by
  intro h
  have hx := h noInfo { triASIBetaValue := some 0, betaValueSPSL := none } 0 rfl
  simp [calculate_investment_metrics] at hx

/-- C1 (amended): riskCategory is absent when beta is absent, absent also
when beta is present but equal to 0 (truthiness), and for every present
nonzero beta it is the fixed-threshold bucket; the buckets partition the
real line at 0.5, 1.0, 1.5 with the lower bucket closed at each boundary. -/
theorem c1_riskCategory_thresholds (s : SymbolInfo) (b : BetaInfo) :
    (b.triASIBetaValue = none → (calculate_investment_metrics s b).risk_category = none) ∧
    (b.triASIBetaValue = some 0 → (calculate_investment_metrics s b).risk_category = none) ∧
    (∀ v : ℚ, b.triASIBetaValue = some v → v ≠ 0 →
      (calculate_investment_metrics s b).risk_category = some (riskBucket v)) ∧
    (∀ v : ℚ,
      (riskBucket v = RiskCategory.highRisk ↔ 3/2 < v) ∧
      (riskBucket v = RiskCategory.mediumRisk ↔ 1 < v ∧ v ≤ 3/2) ∧
      (riskBucket v = RiskCategory.lowRisk ↔ 1/2 < v ∧ v ≤ 1) ∧
      (riskBucket v = RiskCategory.veryLowRisk ↔ v ≤ 1/2)) := by
  refine ⟨?_, ?_, ?_, ?_⟩
  · intro h
    simp only [calculate_investment_metrics, h]
  · intro h
    simp only [calculate_investment_metrics, h]
    norm_num
  · intro v h hv
    simp only [calculate_investment_metrics, h]
    simp [hv]
  · intro v
    unfold riskBucket
    split_ifs with h1 h2 h3 <;> push_neg at * <;> simp_all <;>
      try constructor <;> try intro hh
    all_goals linarith

/-- C1 witness: a present beta of 1.8 yields the HighRisk bucket. -/
theorem c1_riskCategory_thresholds_witness :
    (calculate_investment_metrics noInfo
      { triASIBetaValue := some (9/5), betaValueSPSL := none }).risk_category
      = some (riskBucket (9/5)) :=
  (c1_riskCategory_thresholds noInfo
    { triASIBetaValue := some (9/5), betaValueSPSL := none }).2.2.1 (9/5) rfl (by norm_num)

/-- C5: whenever price_change_pct is present it equals
(last - previousClose) / previousClose * 100 with a nonzero
previousClose, and whenever previousClose is 0 (or absent) the metric is
absent rather than 0 or an error. -/
theorem c5_price_change_pct (s : SymbolInfo) (b : BetaInfo) :
    (∀ x : ℚ, (calculate_investment_metrics s b).price_change_pct = some x →
      pyVal s.previousClose ≠ 0 ∧
      x = ((pyVal s.lastTradedPrice - pyVal s.previousClose) / pyVal s.previousClose) * 100) ∧
    (pyVal s.previousClose = 0 →
      (calculate_investment_metrics s b).price_change_pct = none) := by
  constructor
  · intro x hx
    simp only [calculate_investment_metrics] at hx
    split at hx
    · rename_i hcond
      exact ⟨hcond.2, (Option.some_inj.mp hx).symm⟩
    · exact absurd hx (by simp)
  · intro h
    simp only [calculate_investment_metrics]
    simp [h]

/-- Snapshot with last price 10 and previous close 8. -/
def c5_snap : SymbolInfo := { noInfo with lastTradedPrice := some 10, previousClose := some 8 }

/-- C5 witness: last price 10 and previous close 8 give a present change
of 25 percent matching the formula. -/
theorem c5_price_change_pct_witness :
    pyVal c5_snap.previousClose ≠ 0 ∧
      (25 : ℚ) = ((pyVal c5_snap.lastTradedPrice - pyVal c5_snap.previousClose) /
        pyVal c5_snap.previousClose) * 100 :=
  (c5_price_change_pct c5_snap noBeta).1 25
    (by norm_num [calculate_investment_metrics, c5_snap, noInfo, pyVal])

/-- Snapshot realizing spec scenario 4: ytd high 100, ytd low 50, last 75. -/
def c6_snap : SymbolInfo :=
  { noInfo with lastTradedPrice := some 75, ytdHiPrice := some 100, ytdLowPrice := some 50 }

/-- C6: a snapshot whose ytdHiPrice equals its ytdLowPrice gets neither
ytd_volatility nor position_in_ytd_range, and the concrete snapshot with
high 100, low 50, last 75 gets volatility 100 and range position 50. -/
theorem c6_ytd_range (s : SymbolInfo) (b : BetaInfo) :
    (s.ytdHiPrice = s.ytdLowPrice →
      (calculate_investment_metrics s b).ytd_volatility = none ∧
      (calculate_investment_metrics s b).position_in_ytd_range = none) ∧
    (calculate_investment_metrics c6_snap noBeta).ytd_volatility = some 100 ∧
    (calculate_investment_metrics c6_snap noBeta).position_in_ytd_range = some 50 := by
  refine ⟨?_, by norm_num [calculate_investment_metrics, c6_snap, noInfo, pyVal],
    by norm_num [calculate_investment_metrics, c6_snap, noInfo, pyVal]⟩
  intro h
  simp only [calculate_investment_metrics]
  simp [h]

/-- C6 witness: a degenerate snapshot with ytd high and low both 7 has
both range metrics absent. -/
theorem c6_ytd_range_witness :
    (calculate_investment_metrics { noInfo with ytdHiPrice := some 7, ytdLowPrice := some 7 }
      noBeta).ytd_volatility = none ∧
    (calculate_investment_metrics { noInfo with ytdHiPrice := some 7, ytdLowPrice := some 7 }
      noBeta).position_in_ytd_range = none :=
  (c6_ytd_range { noInfo with ytdHiPrice := some 7, ytdLowPrice := some 7 } noBeta).1 rfl

/-! Aggregation over the collected analysis rows, embedding
`generate_investment_analysis` and its helper methods. A pandas
dataframe column becomes a function from rows to `Option ℚ`; NaN cells
are `none` and every elementwise comparison against NaN is false. -/

/-- One row of the analysis dataframe, holding the fields that the
aggregation functions read. -/
structure AnalysisRow where
  symbol : Option String
  name : Option String
  last_traded_price : Option ℚ
  change_percentage : Option ℚ
  today_volume : Option ℚ
  today_turnover : Option ℚ
  position_in_ytd_range : Option ℚ
  ytd_volatility : Option ℚ
  tri_asi_beta : Option ℚ
  market_cap : Option ℚ
deriving DecidableEq, Repr

/-- Row with every field absent. -/
def noRow : AnalysisRow :=
  { symbol := none, name := none, last_traded_price := none, change_percentage := none
    today_volume := none, today_turnover := none, position_in_ytd_range := none
    ytd_volatility := none, tri_asi_beta := none, market_cap := none }

/-- Elementwise `cell > c`; false on a NaN cell, as in pandas. -/
def oGT (x : Option ℚ) (c : ℚ) : Bool :=
  match x with
  | some v => decide (c < v)
  | none => false

/-- Elementwise `cell < c`; false on a NaN cell. -/
def oLT (x : Option ℚ) (c : ℚ) : Bool :=
  match x with
  | some v => decide (v < c)
  | none => false

/-- Elementwise `cell >= c`; false on a NaN cell. -/
def oGE (x : Option ℚ) (c : ℚ) : Bool :=
  match x with
  | some v => decide (c ≤ v)
  | none => false

/-- Elementwise `cell <= c`; false on a NaN cell. -/
def oLE (x : Option ℚ) (c : ℚ) : Bool :=
  match x with
  | some v => decide (v ≤ c)
  | none => false

/-- Elementwise `cell == c`; false on a NaN cell. -/
def oEQ (x : Option ℚ) (c : ℚ) : Bool :=
  match x with
  | some v => decide (v = c)
  | none => false

/-- Elementwise `cell > scalar` where the scalar itself may be NaN. -/
def oGTo (x y : Option ℚ) : Bool :=
  match x, y with
  | some a, some b => decide (b < a)
  | _, _ => false

/-- Elementwise `cell < scalar` where the scalar itself may be NaN. -/
def oLTo (x y : Option ℚ) : Bool :=
  match x, y with
  | some a, some b => decide (a < b)
  | _, _ => false

/-- Elementwise `cell <= scalar` where the scalar itself may be NaN. -/
def oLEo (x y : Option ℚ) : Bool :=
  match x, y with
  | some a, some b => decide (a ≤ b)
  | _, _ => false

/-- Pandas series mean: NaN (here `none`) on an empty series, else the
arithmetic mean of the non-null values. -/
def seriesMean (l : List ℚ) : Option ℚ :=
  if l.isEmpty then none else some (l.sum / l.length)

/-- Pandas series max over the non-null values; NaN when empty. -/
def seriesMax (l : List ℚ) : Option ℚ :=
  l.foldl (fun acc v => match acc with
    | none => some v
    | some m => some (max m v)) none

/-- Pandas series min over the non-null values; NaN when empty. -/
def seriesMin (l : List ℚ) : Option ℚ :=
  l.foldl (fun acc v => match acc with
    | none => some v
    | some m => some (min m v)) none

/-- Pandas linear-interpolation quantile over the non-null values:
position (n-1)q between the sorted values; NaN when the series is
empty. `median()` is the 1/2 quantile. -/
def seriesQuantile (q : ℚ) (l : List ℚ) : Option ℚ :=
  match l with
  | [] => none
  | _ :: _ =>
    let s := List.insertionSort (· ≤ ·) l
    let n := s.length
    let h := ((n : ℚ) - 1) * q
    let f : ℕ := ⌊h⌋.toNat
    let x0 := s.getD f 0
    let x1 := s.getD (f + 1) x0
    some (x0 + (h - (f : ℚ)) * (x1 - x0))

/-- Active subset filter of `generate_investment_analysis`:
`df[(df['last_traded_price'].notna()) & (df['last_traded_price'] > 0)]`. -/
def dfActive (rs : List AnalysisRow) : List AnalysisRow :=
  rs.filter (fun r => r.last_traded_price.isSome && oGT r.last_traded_price 0)

/-- Price-range block of `_analyze_market_overview`. -/
structure PriceRanges where
  average_price : Option ℚ
  median_price : Option ℚ
  highest_price : Option ℚ
  lowest_price : Option ℚ
deriving DecidableEq, Repr

/-- Result of `_analyze_market_overview`. -/
structure MarketOverview where
  total_market_capitalization : ℚ
  average_market_cap : Option ℚ
  median_market_cap : Option ℚ
  large_cap : ℕ
  mid_cap : ℕ
  small_cap : ℕ
  price_ranges : PriceRanges
deriving DecidableEq, Repr

/-- Embedding of `_analyze_market_overview`: empty dict on an empty
frame, else totals, cap buckets at the 30th/90th percentiles of the
market-cap column, and price range stats. -/
def analyze_market_overview (df : List AnalysisRow) : Option MarketOverview :=
  if df.isEmpty then none else
  let caps := df.filterMap (fun r => r.market_cap)
  let q90 := seriesQuantile (9/10) caps
  let q30 := seriesQuantile (3/10) caps
  let prices := df.filterMap (fun r => r.last_traded_price)
  some
    { total_market_capitalization := caps.sum
      average_market_cap := seriesMean caps
      median_market_cap := seriesQuantile (1/2) caps
      large_cap := df.countP (fun r => oGTo r.market_cap q90)
      mid_cap := df.countP (fun r => oGTo r.market_cap q30 && oLEo r.market_cap q90)
      small_cap := df.countP (fun r => oLEo r.market_cap q30)
      price_ranges :=
        { average_price := seriesMean prices
          median_price := seriesQuantile (1/2) prices
          highest_price := seriesMax prices
          lowest_price := seriesMin prices } }

/-- Position block of `_analyze_valuations`. -/
structure YtdPositionAnalysis where
  near_highs : ℕ
  mid_range : ℕ
  near_lows : ℕ
  average_position : Option ℚ
deriving DecidableEq, Repr

/-- Volatility block of `_analyze_valuations`. -/
structure VolatilityAnalysis where
  high_volatility : ℕ
  medium_volatility : ℕ
  low_volatility : ℕ
deriving DecidableEq, Repr

/-- Result of `_analyze_valuations`. -/
structure ValuationMetrics where
  ytd_position_analysis : YtdPositionAnalysis
  volatility_analysis : VolatilityAnalysis
deriving DecidableEq, Repr

/-- Embedding of `_analyze_valuations`: the empty dict (here `none`)
when the frame, or its sub-frame with a present ytd position, is empty. -/
def analyze_valuations (df : List AnalysisRow) : Option ValuationMetrics :=
  if df.isEmpty then none else
  let df_with_ytd := df.filter (fun r => r.position_in_ytd_range.isSome)
  if df_with_ytd.isEmpty then none else
  some
    { ytd_position_analysis :=
        { near_highs := df_with_ytd.countP (fun r => oGT r.position_in_ytd_range 80)
          mid_range := df_with_ytd.countP (fun r =>
            oGE r.position_in_ytd_range 20 && oLE r.position_in_ytd_range 80)
          near_lows := df_with_ytd.countP (fun r => oLT r.position_in_ytd_range 20)
          average_position :=
            seriesMean (df_with_ytd.filterMap (fun r => r.position_in_ytd_range)) }
      volatility_analysis :=
        { high_volatility := df.countP (fun r => oGT r.ytd_volatility 100)
          medium_volatility := df.countP (fun r =>
            oGE r.ytd_volatility 50 && oLE r.ytd_volatility 100)
          low_volatility := df.countP (fun r => oLT r.ytd_volatility 50) } }

/-- Histogram block of `_analyze_risk_profile`. -/
structure BetaDistribution where
  high_risk : ℕ
  medium_risk : ℕ
  low_risk : ℕ
  very_low_risk : ℕ
deriving DecidableEq, Repr

/-- Statistics block of `_analyze_risk_profile`. -/
structure BetaStatistics where
  average_beta : Option ℚ
  median_beta : Option ℚ
  highest_beta : Option ℚ
  lowest_beta : Option ℚ
deriving DecidableEq, Repr

/-- Result of `_analyze_risk_profile`: the empty dict on an empty frame,
a note dict when no row has a beta, else the histogram and statistics. -/
inductive RiskAnalysis where
  | empty
  | noBetaData
  | stats (dist : BetaDistribution) (bstats : BetaStatistics)
deriving DecidableEq, Repr

/-- Embedding of `_analyze_risk_profile`. -/
def analyze_risk_profile (df : List AnalysisRow) : RiskAnalysis :=
  if df.isEmpty then RiskAnalysis.empty else
  let df_with_beta := df.filter (fun r => r.tri_asi_beta.isSome)
  if df_with_beta.isEmpty then RiskAnalysis.noBetaData else
  let betas := df_with_beta.filterMap (fun r => r.tri_asi_beta)
  RiskAnalysis.stats
    { high_risk := df_with_beta.countP (fun r => oGT r.tri_asi_beta (3/2))
      medium_risk := df_with_beta.countP (fun r =>
        oGT r.tri_asi_beta 1 && oLE r.tri_asi_beta (3/2))
      low_risk := df_with_beta.countP (fun r =>
        oGT r.tri_asi_beta (1/2) && oLE r.tri_asi_beta 1)
      very_low_risk := df_with_beta.countP (fun r => oLE r.tri_asi_beta (1/2)) }
    { average_beta := seriesMean betas
      median_beta := seriesQuantile (1/2) betas
      highest_beta := seriesMax betas
      lowest_beta := seriesMin betas }

/-- Result of `_analyze_performance`. -/
structure DailyPerformance where
  gainers : ℕ
  losers : ℕ
  unchanged : ℕ
  average_change : Option ℚ
  best_performer : Option ℚ
  worst_performer : Option ℚ
deriving DecidableEq, Repr

/-- Embedding of `_analyze_performance`: counts and stats over the rows
whose change_percentage is present. -/
def analyze_performance (df : List AnalysisRow) : Option DailyPerformance :=
  if df.isEmpty then none else
  let df_with_change := df.filter (fun r => r.change_percentage.isSome)
  let changes := df_with_change.filterMap (fun r => r.change_percentage)
  some
    { gainers := df_with_change.countP (fun r => oGT r.change_percentage 0)
      losers := df_with_change.countP (fun r => oLT r.change_percentage 0)
      unchanged := df_with_change.countP (fun r => oEQ r.change_percentage 0)
      average_change := seriesMean changes
      best_performer := seriesMax changes
      worst_performer := seriesMin changes }

/-- Volume block of `_analyze_liquidity`. -/
structure VolumeAnalysis where
  total_volume_today : ℚ
  average_volume : Option ℚ
  high_volume_stocks : ℕ
  low_volume_stocks : ℕ
deriving DecidableEq, Repr

/-- Turnover block of `_analyze_liquidity`. -/
structure TurnoverAnalysis where
  total_turnover_today : ℚ
  companies_with_turnover : ℕ
deriving DecidableEq, Repr

/-- Result of `_analyze_liquidity`: the empty dict on an empty frame, a
note dict when no row has positive volume, else the two blocks. -/
inductive LiquidityAnalysis where
  | empty
  | noVolumeData
  | stats (vol : VolumeAnalysis) (turn : TurnoverAnalysis)
deriving DecidableEq, Repr

/-- Embedding of `_analyze_liquidity`. -/
def analyze_liquidity (df : List AnalysisRow) : LiquidityAnalysis :=
  if df.isEmpty then LiquidityAnalysis.empty else
  let df_with_volume := df.filter (fun r => r.today_volume.isSome && oGT r.today_volume 0)
  if df_with_volume.isEmpty then LiquidityAnalysis.noVolumeData else
  let vols := df_with_volume.filterMap (fun r => r.today_volume)
  let q80 := seriesQuantile (4/5) vols
  let q20 := seriesQuantile (1/5) vols
  LiquidityAnalysis.stats
    { total_volume_today := vols.sum
      average_volume := seriesMean vols
      high_volume_stocks := df_with_volume.countP (fun r => oGTo r.today_volume q80)
      low_volume_stocks := df_with_volume.countP (fun r => oLTo r.today_volume q20) }
    { total_turnover_today := (df_with_volume.filterMap (fun r => r.today_turnover)).sum
      companies_with_turnover := df_with_volume.countP (fun r =>
        r.today_turnover.isSome && oGT r.today_turnover 0) }

/-- Entry of the value opportunity list: the columns selected before
`to_dict('records')`. -/
structure ValueEntry where
  symbol : Option String
  name : Option String
  last_traded_price : Option ℚ
  position_in_ytd_range : Option ℚ
  market_cap : Option ℚ
deriving DecidableEq, Repr

/-- Entry of the growth opportunity list. -/
structure GrowthEntry where
  symbol : Option String
  name : Option String
  last_traded_price : Option ℚ
  change_percentage : Option ℚ
  today_volume : Option ℚ
deriving DecidableEq, Repr

/-- Entry of the stable opportunity list. -/
structure StableEntry where
  symbol : Option String
  name : Option String
  last_traded_price : Option ℚ
  tri_asi_beta : Option ℚ
  market_cap : Option ℚ
deriving DecidableEq, Repr

/-- Column selection for a value opportunity row. -/
def mkValueEntry (r : AnalysisRow) : ValueEntry :=
  { symbol := r.symbol, name := r.name, last_traded_price := r.last_traded_price
    position_in_ytd_range := r.position_in_ytd_range, market_cap := r.market_cap }

/-- Column selection for a growth opportunity row. -/
def mkGrowthEntry (r : AnalysisRow) : GrowthEntry :=
  { symbol := r.symbol, name := r.name, last_traded_price := r.last_traded_price
    change_percentage := r.change_percentage, today_volume := r.today_volume }

/-- Column selection for a stable opportunity row. -/
def mkStableEntry (r : AnalysisRow) : StableEntry :=
  { symbol := r.symbol, name := r.name, last_traded_price := r.last_traded_price
    tri_asi_beta := r.tri_asi_beta, market_cap := r.market_cap }

/-- Ascending `sort_values` by a numeric column (all rows entering a
sort here have the key present). -/
def sortAscBy (f : AnalysisRow → Option ℚ) (l : List AnalysisRow) : List AnalysisRow :=
  List.insertionSort (fun a b => pyVal (f a) ≤ pyVal (f b)) l

/-- Descending `sort_values` by a numeric column. -/
def sortDescBy (f : AnalysisRow → Option ℚ) (l : List AnalysisRow) : List AnalysisRow :=
  List.insertionSort (fun a b => pyVal (f b) ≤ pyVal (f a)) l

/-- Value block of `_identify_opportunities`: rows with a present ytd
position below 25, ascending, top 10; the dict key is absent when no row
has a present ytd position. -/
def value_opportunity_list (df : List AnalysisRow) : Option (List ValueEntry) :=
  let df_with_ytd := df.filter (fun r => r.position_in_ytd_range.isSome)
  if df_with_ytd.isEmpty then none else
  some (((sortAscBy (fun r => r.position_in_ytd_range)
    (df_with_ytd.filter (fun r => oLT r.position_in_ytd_range 25))).take 10).map mkValueEntry)

/-- Growth block of `_identify_opportunities`: rows with change above 5
and positive present volume, descending by change, top 10; the dict key
is absent when the filtered frame is empty. -/
def growth_opportunity_list (df : List AnalysisRow) : Option (List GrowthEntry) :=
  let df_growth := df.filter (fun r =>
    oGT r.change_percentage 5 && r.today_volume.isSome && oGT r.today_volume 0)
  if df_growth.isEmpty then none else
  some (((sortDescBy (fun r => r.change_percentage) df_growth).take 10).map mkGrowthEntry)

/-- Stable block of `_identify_opportunities`: rows with a present beta
below 1 and market cap above the column median, ascending by beta, top
10; the dict key is absent when the filtered frame is empty. -/
def stable_opportunity_list (df : List AnalysisRow) : Option (List StableEntry) :=
  let med := seriesQuantile (1/2) (df.filterMap (fun r => r.market_cap))
  let df_stable := df.filter (fun r =>
    r.tri_asi_beta.isSome && oLT r.tri_asi_beta 1 && oGTo r.market_cap med)
  if df_stable.isEmpty then none else
  some (((sortAscBy (fun r => r.tri_asi_beta) df_stable).take 10).map mkStableEntry)

/-- Result of `_identify_opportunities`: each list key optional. -/
structure Opportunities where
  value_opportunities : Option (List ValueEntry)
  growth_opportunities : Option (List GrowthEntry)
  stable_opportunities : Option (List StableEntry)
deriving DecidableEq, Repr

/-- Embedding of `_identify_opportunities`: the empty dict on an empty
frame, else the three guarded blocks. -/
def identify_opportunities (df : List AnalysisRow) : Opportunities :=
  if df.isEmpty then { value_opportunities := none, growth_opportunities := none
                       stable_opportunities := none }
  else
    { value_opportunities := value_opportunity_list df
      growth_opportunities := growth_opportunity_list df
      stable_opportunities := stable_opportunity_list df }

/-- Summary block of `generate_investment_analysis`; analysis_date is
the wall-clock string taken at call time. -/
structure AnalysisSummary where
  total_companies : ℕ
  active_companies : ℕ
  inactive_companies : ℕ
  analysis_date : String
deriving DecidableEq, Repr

/-- Full result of `generate_investment_analysis`. -/
structure AnalysisReport where
  summary : AnalysisSummary
  market_overview : Option MarketOverview
  valuation_analysis : Option ValuationMetrics
  risk_analysis : RiskAnalysis
  performance_analysis : Option DailyPerformance
  liquidity_analysis : LiquidityAnalysis
  investment_opportunities : Opportunities
deriving DecidableEq, Repr

/-- Embedding of `generate_investment_analysis`. The Python method reads
`datetime.now()` for the summary block; that clock value is the explicit
`now` argument here. An empty record collection returns the error dict,
here `none`. -/
def generate_investment_analysis (analysis_results : List AnalysisRow) (now : String) :
    Option AnalysisReport :=
  if analysis_results.isEmpty then none else
  let df_active := dfActive analysis_results
  some
    { summary :=
        { total_companies := analysis_results.length
          active_companies := df_active.length
          inactive_companies := analysis_results.length - df_active.length
          analysis_date := now }
      market_overview := analyze_market_overview df_active
      valuation_analysis := analyze_valuations df_active
      risk_analysis := analyze_risk_profile df_active
      performance_analysis := analyze_performance df_active
      liquidity_analysis := analyze_liquidity df_active
      investment_opportunities := identify_opportunities df_active }

/-- Report with the call-time stamp erased, used to compare two reports
up to their analysis_date. -/
def stripDate (r : Option AnalysisReport) : Option AnalysisReport :=
  r.map (fun rep => { rep with summary := { rep.summary with analysis_date := "" } })

/-- Positive elementwise comparison forces a present cell. -/
theorem oGT_isSome {x : Option ℚ} {c : ℚ} (h : oGT x c = true) : x.isSome := by
  cases x <;> simp_all [oGT]

/-- Row with last price 1 and change 5.2 percent. -/
def c2r1 : AnalysisRow := { noRow with last_traded_price := some 1, change_percentage := some (26/5) }

/-- Row with last price 1 and change -1.0 percent. -/
def c2r2 : AnalysisRow := { noRow with last_traded_price := some 1, change_percentage := some (-1) }

/-- Row with last price 1 and change 0.0 percent. -/
def c2r3 : AnalysisRow := { noRow with last_traded_price := some 1, change_percentage := some 0 }

/-- C2 counterexample: on the three records with change values 5.2,
-1.0, 0.0 the performance block reports gainers, losers and unchanged of
one each, but the mean change is exactly 7/5 = 1.4, not approximately
1.4667 as the claim states (the two differ by 667/10000). -/
theorem c2_counterexample :
    analyze_performance (dfActive [c2r1, c2r2, c2r3]) = some
      { gainers := 1, losers := 1, unchanged := 1, average_change := some (7/5),
        best_performer := some (26/5), worst_performer := some (-1) } ∧
    ¬ (|(7/5 : ℚ) - 14667/10000| ≤ 1/1000) := by
  constructor
  · have hd : dfActive [c2r1, c2r2, c2r3] = [c2r1, c2r2, c2r3] := by
      norm_num [dfActive, c2r1, c2r2, c2r3, noRow, oGT]
    rw [hd]
    simp [analyze_performance, c2r1, c2r2, c2r3, noRow, oGT, oLT, oEQ,
      seriesMean, seriesMax, seriesMin]
    norm_num [max_def, min_def, List.countP_cons]
  · rw [abs_le]
    push_neg
    intro h
    norm_num at h ⊢

/-- C2 (amended): for any three active records whose change percentages
are 5.2, -1.0 and 0.0, the performance block reports one gainer, one
loser, one unchanged, a mean change of exactly 7/5, best 26/5 and worst
-1. -/
theorem c2_performance (r1 r2 r3 : AnalysisRow)
    (h1 : r1.change_percentage = some (26/5))
    (h2 : r2.change_percentage = some (-1))
    (h3 : r3.change_percentage = some 0)
    (hp1 : oGT r1.last_traded_price 0 = true)
    (hp2 : oGT r2.last_traded_price 0 = true)
    (hp3 : oGT r3.last_traded_price 0 = true) :
    analyze_performance (dfActive [r1, r2, r3]) = some
      { gainers := 1, losers := 1, unchanged := 1, average_change := some (7/5),
        best_performer := some (26/5), worst_performer := some (-1) } := by
  have a1 := oGT_isSome hp1
  have a2 := oGT_isSome hp2
  have a3 := oGT_isSome hp3
  have hd : dfActive [r1, r2, r3] = [r1, r2, r3] := by
    simp [dfActive, hp1, hp2, hp3, a1, a2, a3]
  rw [hd]
  simp [analyze_performance, h1, h2, h3, oGT, oLT, oEQ, seriesMean, seriesMax, seriesMin]
  norm_num [max_def, min_def, List.countP_cons, h1, h2, h3]

/-- C2 witness: the three concrete rows realize the amended scenario. -/
theorem c2_performance_witness :
    analyze_performance (dfActive [c2r1, c2r2, c2r3]) = some
      { gainers := 1, losers := 1, unchanged := 1, average_change := some (7/5),
        best_performer := some (26/5), worst_performer := some (-1) } :=
  c2_performance c2r1 c2r2 c2r3 rfl rfl rfl
    (by norm_num [c2r1, noRow, oGT]) (by norm_num [c2r2, noRow, oGT])
    (by norm_num [c2r3, noRow, oGT])

/-- C3 counterexample: the report embeds the wall-clock reading
(`datetime.now()`) as summary analysis_date, so two aggregations of the
same one-row collection at different clock readings give different
reports; the report is not a function of the record collection alone. -/
theorem c3_counterexample :
    ¬ (∀ (rs : List AnalysisRow) (t1 t2 : String),
        generate_investment_analysis rs t1 = generate_investment_analysis rs t2) := by
  intro h
  have hx := h [noRow] "2025-01-01" "2025-01-02"
  have h1 : (generate_investment_analysis [noRow] "2025-01-01").map
      (fun rep => rep.summary.analysis_date) = some "2025-01-01" := by
    simp [generate_investment_analysis]
  have h2 : (generate_investment_analysis [noRow] "2025-01-02").map
      (fun rep => rep.summary.analysis_date) = some "2025-01-02" := by
    simp [generate_investment_analysis]
  rw [hx, h2] at h1
  exact absurd (Option.some_inj.mp h1) (by decide)

/-- C3 (amended): apart from the summary analysis_date stamp, the report
is a pure function of the record collection — aggregating the same
immutable collection twice, at any two clock readings, yields
bit-identical statistics in every section, all computed over the active
subset at call time. -/
theorem c3_aggregation_pure (rs : List AnalysisRow) (t1 t2 : String) :
    stripDate (generate_investment_analysis rs t1) =
      stripDate (generate_investment_analysis rs t2) := by
  by_cases h : rs.isEmpty <;>
    simp [generate_investment_analysis, h, stripDate]

/-- Unfolding lemma for a true elementwise less-than. -/
theorem oLT_some {x : Option ℚ} {c : ℚ} (h : oLT x c = true) : ∃ v, x = some v ∧ v < c := by
  cases x <;> simp_all [oLT]

/-- Unfolding lemma for a true elementwise greater-than. -/
theorem oGT_some {x : Option ℚ} {c : ℚ} (h : oGT x c = true) : ∃ v, x = some v ∧ c < v := by
  cases x <;> simp_all [oGT]

/-- Unfolding lemma for a true cell-scalar greater-than. -/
theorem oGTo_some {x y : Option ℚ} (h : oGTo x y = true) :
    ∃ a b, x = some a ∧ y = some b ∧ b < a := by
  cases x <;> cases y <;> simp_all [oGTo]

/-- Every row of the active subset has a present positive last price. -/
theorem mem_dfActive {rs : List AnalysisRow} {r : AnalysisRow} (h : r ∈ dfActive rs) :
    ∃ p, r.last_traded_price = some p ∧ 0 < p := by
  have hp := (List.mem_filter.mp h).2
  simp only [Bool.and_eq_true] at hp
  exact oGT_some hp.2

/-- Ascending sort preserves membership. -/
theorem mem_sortAscBy {f : AnalysisRow → Option ℚ} {l : List AnalysisRow} {x : AnalysisRow} :
    x ∈ sortAscBy f l ↔ x ∈ l :=
  (List.perm_insertionSort _ l).mem_iff

/-- Descending sort preserves membership. -/
theorem mem_sortDescBy {f : AnalysisRow → Option ℚ} {l : List AnalysisRow} {x : AnalysisRow} :
    x ∈ sortDescBy f l ↔ x ∈ l :=
  (List.perm_insertionSort _ l).mem_iff

/-- Every entry of the value opportunity list comes from a source row
that passed the ytd-position filter. -/
theorem value_opportunity_mem {df : List AnalysisRow} {l : List ValueEntry} {e : ValueEntry}
    (hl : value_opportunity_list df = some l) (he : e ∈ l) :
    ∃ r, r ∈ df ∧ oLT r.position_in_ytd_range 25 = true ∧ e = mkValueEntry r := by
  simp only [value_opportunity_list] at hl
  split at hl
  · exact absurd hl (by simp)
  · obtain ⟨r, hr, hre⟩ := List.mem_map.mp ((Option.some_inj.mp hl) ▸ he)
    have hr2 := mem_sortAscBy.mp (List.take_subset _ _ hr)
    have hr3 := List.mem_filter.mp hr2
    have hr4 := List.mem_filter.mp hr3.1
    exact ⟨r, hr4.1, hr3.2, hre.symm⟩

/-- Every entry of the growth opportunity list comes from a source row
that passed the change and volume filter. -/
theorem growth_opportunity_mem {df : List AnalysisRow} {l : List GrowthEntry} {e : GrowthEntry}
    (hl : growth_opportunity_list df = some l) (he : e ∈ l) :
    ∃ r, r ∈ df ∧ oGT r.change_percentage 5 = true ∧ oGT r.today_volume 0 = true ∧
      e = mkGrowthEntry r := by
  simp only [growth_opportunity_list] at hl
  split at hl
  · exact absurd hl (by simp)
  · obtain ⟨r, hr, hre⟩ := List.mem_map.mp ((Option.some_inj.mp hl) ▸ he)
    have hr2 := mem_sortDescBy.mp (List.take_subset _ _ hr)
    have hr3 := List.mem_filter.mp hr2
    have hp := hr3.2
    simp only [Bool.and_eq_true] at hp
    exact ⟨r, hr3.1, hp.1.1, hp.2, hre.symm⟩

/-- Every entry of the stable opportunity list comes from a source row
that passed the beta and market-cap filter. -/
theorem stable_opportunity_mem {df : List AnalysisRow} {l : List StableEntry} {e : StableEntry}
    (hl : stable_opportunity_list df = some l) (he : e ∈ l) :
    ∃ r, r ∈ df ∧ oLT r.tri_asi_beta 1 = true ∧
      oGTo r.market_cap (seriesQuantile (1/2) (df.filterMap (fun x => x.market_cap))) = true ∧
      e = mkStableEntry r := by
  simp only [stable_opportunity_list] at hl
  split at hl
  · exact absurd hl (by simp)
  · obtain ⟨r, hr, hre⟩ := List.mem_map.mp ((Option.some_inj.mp hl) ▸ he)
    have hr2 := mem_sortAscBy.mp (List.take_subset _ _ hr)
    have hr3 := List.mem_filter.mp hr2
    have hp := hr3.2
    simp only [Bool.and_eq_true] at hp
    exact ⟨r, hr3.1, hp.1.2, hp.2, hre.symm⟩

/-- Row with a present symbol, name, last price and ytd position but an
absent market cap. -/
def c4_row : AnalysisRow :=
  { noRow with
    symbol := some "X"
    name := some "XCo"
    last_traded_price := some 5
    position_in_ytd_range := some 10 }

/-- C4 counterexample: a record near its ytd low but with an absent
market cap is ranked into the value opportunity list, and its reported
market_cap field is None — an absent value leaks into a ranked entry,
against the claim that no field of any ranked entry is NaN or None. -/
theorem c4_counterexample :
    (identify_opportunities (dfActive [c4_row])).value_opportunities =
      some [mkValueEntry c4_row] ∧ (mkValueEntry c4_row).market_cap = none := by
  constructor
  · norm_num [identify_opportunities, dfActive, c4_row, noRow, oGT, oLT,
      value_opportunity_list, sortAscBy, List.insertionSort, List.orderedInsert, mkValueEntry]
  · rfl

/-- C4 (amended): every ranked entry has present, in-filter values in
the fields its list filters on — value entries have a present last price
above 0 and a present ytd position below 25; growth entries also have
change above 5 and volume above 0; stable entries also have beta below 1
and a present market cap above the active-subset median — but the other
reported columns (market_cap and name in the value list, symbol and name
elsewhere) are copied unchecked and may be absent. -/
theorem c4_opportunity_fields (rs : List AnalysisRow) :
    (∀ (l : List ValueEntry) (e : ValueEntry),
      (identify_opportunities (dfActive rs)).value_opportunities = some l → e ∈ l →
      (∃ p, e.last_traded_price = some p ∧ 0 < p) ∧
      (∃ q, e.position_in_ytd_range = some q ∧ q < 25)) ∧
    (∀ (l : List GrowthEntry) (e : GrowthEntry),
      (identify_opportunities (dfActive rs)).growth_opportunities = some l → e ∈ l →
      (∃ p, e.last_traded_price = some p ∧ 0 < p) ∧
      (∃ c, e.change_percentage = some c ∧ 5 < c) ∧
      (∃ v, e.today_volume = some v ∧ 0 < v)) ∧
    (∀ (l : List StableEntry) (e : StableEntry),
      (identify_opportunities (dfActive rs)).stable_opportunities = some l → e ∈ l →
      (∃ p, e.last_traded_price = some p ∧ 0 < p) ∧
      (∃ b, e.tri_asi_beta = some b ∧ b < 1) ∧
      (∃ m mmed, e.market_cap = some m ∧
        seriesQuantile (1/2) ((dfActive rs).filterMap (fun x => x.market_cap)) = some mmed ∧
        mmed < m)) := by
  by_cases hemp : (dfActive rs).isEmpty
  · refine ⟨?_, ?_, ?_⟩ <;> intro l e hl he <;>
      simp [identify_opportunities, hemp] at hl
  · refine ⟨?_, ?_, ?_⟩ <;> intro l e hl he <;>
      simp only [identify_opportunities, hemp, if_false] at hl
    · obtain ⟨r, hr, hflt, hre⟩ := value_opportunity_mem hl he
      obtain ⟨q, hq, hq25⟩ := oLT_some hflt
      obtain ⟨p, hp, hp0⟩ := mem_dfActive hr
      subst hre
      exact ⟨⟨p, by simpa [mkValueEntry] using hp, hp0⟩,
        ⟨q, by simpa [mkValueEntry] using hq, hq25⟩⟩
    · obtain ⟨r, hr, hchg, hvol, hre⟩ := growth_opportunity_mem hl he
      obtain ⟨c, hc, hc5⟩ := oGT_some hchg
      obtain ⟨v, hv, hv0⟩ := oGT_some hvol
      obtain ⟨p, hp, hp0⟩ := mem_dfActive hr
      subst hre
      exact ⟨⟨p, by simpa [mkGrowthEntry] using hp, hp0⟩,
        ⟨c, by simpa [mkGrowthEntry] using hc, hc5⟩,
        ⟨v, by simpa [mkGrowthEntry] using hv, hv0⟩⟩
    · obtain ⟨r, hr, hbeta, hcap, hre⟩ := stable_opportunity_mem hl he
      obtain ⟨b, hb, hb1⟩ := oLT_some hbeta
      obtain ⟨m, mmed, hm, hmed, hmm⟩ := oGTo_some hcap
      obtain ⟨p, hp, hp0⟩ := mem_dfActive hr
      subst hre
      exact ⟨⟨p, by simpa [mkStableEntry] using hp, hp0⟩,
        ⟨b, by simpa [mkStableEntry] using hb, hb1⟩,
        ⟨m, mmed, by simpa [mkStableEntry] using hm, hmed, hmm⟩⟩

/-- C4 witness: for the singleton collection holding the sample row, the
value entry produced has last price 5 above 0 and ytd position 10 below
25. -/
theorem c4_opportunity_fields_witness :
    (∃ p, (mkValueEntry c4_row).last_traded_price = some p ∧ 0 < p) ∧
    (∃ q, (mkValueEntry c4_row).position_in_ytd_range = some q ∧ q < 25) :=
  (c4_opportunity_fields [c4_row]).1 [mkValueEntry c4_row] (mkValueEntry c4_row)
    (by norm_num [identify_opportunities, dfActive, c4_row, noRow, oGT, oLT,
      value_opportunity_list, sortAscBy, List.insertionSort, List.orderedInsert, mkValueEntry])
    (by simp)

/-- C9: the active-subset filter keeps exactly the rows with a present
positive last price, and every entry of every opportunity list carries a
present positive last price. -/
theorem c9_active_filter (rs : List AnalysisRow) :
    (∀ r ∈ dfActive rs, ∃ p, r.last_traded_price = some p ∧ 0 < p) ∧
    (∀ (l : List ValueEntry) (e : ValueEntry),
      (identify_opportunities (dfActive rs)).value_opportunities = some l → e ∈ l →
      ∃ p, e.last_traded_price = some p ∧ 0 < p) ∧
    (∀ (l : List GrowthEntry) (e : GrowthEntry),
      (identify_opportunities (dfActive rs)).growth_opportunities = some l → e ∈ l →
      ∃ p, e.last_traded_price = some p ∧ 0 < p) ∧
    (∀ (l : List StableEntry) (e : StableEntry),
      (identify_opportunities (dfActive rs)).stable_opportunities = some l → e ∈ l →
      ∃ p, e.last_traded_price = some p ∧ 0 < p) := by
  refine ⟨fun r hr => mem_dfActive hr, ?_, ?_, ?_⟩ <;> intro l e hl he <;>
    by_cases hemp : (dfActive rs).isEmpty
  · simp [identify_opportunities, hemp] at hl
  · simp only [identify_opportunities, hemp, if_false] at hl
    obtain ⟨r, hr, _, hre⟩ := value_opportunity_mem hl he
    obtain ⟨p, hp, hp0⟩ := mem_dfActive hr
    subst hre
    exact ⟨p, by simpa [mkValueEntry] using hp, hp0⟩
  · simp [identify_opportunities, hemp] at hl
  · simp only [identify_opportunities, hemp, if_false] at hl
    obtain ⟨r, hr, _, _, hre⟩ := growth_opportunity_mem hl he
    obtain ⟨p, hp, hp0⟩ := mem_dfActive hr
    subst hre
    exact ⟨p, by simpa [mkGrowthEntry] using hp, hp0⟩
  · simp [identify_opportunities, hemp] at hl
  · simp only [identify_opportunities, hemp, if_false] at hl
    obtain ⟨r, hr, _, _, hre⟩ := stable_opportunity_mem hl he
    obtain ⟨p, hp, hp0⟩ := mem_dfActive hr
    subst hre
    exact ⟨p, by simpa [mkStableEntry] using hp, hp0⟩

/-- C9 witness: the sample row is in the active subset of its singleton
collection and indeed has a present positive last price. -/
theorem c9_active_filter_witness :
    ∃ p, c4_row.last_traded_price = some p ∧ 0 < p :=
  (c9_active_filter [c4_row]).1 c4_row
    (by norm_num [dfActive, c4_row, noRow, oGT])

/-! Per-entity fetch loop of `analyze_companies` and the per-letter
roster loop of `get_all_companies`. The network is an explicit list
pairing each entity with the outcome of its request. -/

/-- Entry of the cached company roster, as read by the loop. -/
structure PyCompany where
  symbol : Option String
  name : Option String
deriving DecidableEq, Repr

/-- Outcome of `get_company_summary` for one company: the payload parts
on success, the error string on failure. -/
inductive FetchResult where
  | ok (info : SymbolInfo) (beta : BetaInfo)
  | err (msg : String)
deriving DecidableEq, Repr

/-- Record built by `extract_comprehensive_data`: raw fields plus the
merged investment metrics. -/
structure Extracted where
  info : SymbolInfo
  beta : BetaInfo
  metrics : Metrics
deriving DecidableEq, Repr

/-- Embedding of `extract_comprehensive_data` (the part of the dict the
later pipeline reads: raw fields and merged metrics). -/
def extract_comprehensive_data (info : SymbolInfo) (beta : BetaInfo) : Extracted :=
  { info := info, beta := beta, metrics := calculate_investment_metrics info beta }

/-- Failure entry appended to `failed_requests` by `analyze_companies`. -/
structure FailureRec where
  symbol : Option String
  name : Option String
  error : String
deriving DecidableEq, Repr

/-- Embedding of the `analyze_companies` loop body: a success appends an
extracted record to analysis_results, a failure appends a FailureRec to
failed_requests, and the loop always continues with the next entity. -/
def analyze_companies : List (PyCompany × FetchResult) → List Extracted × List FailureRec
  | [] => ([], [])
  | (c, r) :: rest =>
    let acc := analyze_companies rest
    match r with
    | FetchResult.ok info beta => (extract_comprehensive_data info beta :: acc.1, acc.2)
    | FetchResult.err m => (acc.1, { symbol := c.symbol, name := c.name, error := m } :: acc.2)

/-- C7: over three entities where the second fetch fails, the loop
returns the two successful records in order and exactly one
FailureRecord carrying the identifier and error of the second entity —
the third entity is still processed; in general the loop accounts for
every entity, splitting the input length between results and failures. -/
theorem c7_fetch_loop_failure (c1 c2 c3 : PyCompany) (i1 i3 : SymbolInfo) (b1 b3 : BetaInfo)
    (msg : String) :
    analyze_companies [(c1, FetchResult.ok i1 b1), (c2, FetchResult.err msg),
        (c3, FetchResult.ok i3 b3)] =
      ([extract_comprehensive_data i1 b1, extract_comprehensive_data i3 b3],
        [{ symbol := c2.symbol, name := c2.name, error := msg }]) ∧
    ∀ xs : List (PyCompany × FetchResult),
      (analyze_companies xs).1.length + (analyze_companies xs).2.length = xs.length := by
  constructor
  · rfl
  · intro xs
    induction xs with
    | nil => rfl
    | cons x rest ih =>
      obtain ⟨c, r⟩ := x
      cases r <;> simp [analyze_companies] <;> omega

/-- Events of a fetch loop: one API call, or one fixed-length sleep. -/
inductive Ev where
  | call
  | sleep (d : ℚ)
deriving DecidableEq, Repr

/-- True exactly on a call event. -/
def isCall : Ev → Bool
  | Ev.call => true
  | Ev.sleep _ => false

/-- Trace of the `analyze_companies` loop: each iteration issues one
call, and `time.sleep(delay)` runs after every iteration except the last
(`if i < total_companies`), whatever the call outcome was. -/
def analyze_companies_trace (d : ℚ) : List (PyCompany × FetchResult) → List Ev
  | [] => []
  | [_] => [Ev.call]
  | _ :: rest => Ev.call :: Ev.sleep d :: analyze_companies_trace d rest

/-- Trace of the `get_all_companies` roster loop in `app.py`: one call
per letter, and no sleep anywhere in the loop body. -/
def get_all_companies_trace (letters : List Char) : List Ev :=
  letters.map (fun _ => Ev.call)

/-- Letters iterated by `get_all_companies` (string.ascii_uppercase). -/
def asciiUppercase : List Char :=
  ['A', 'B', 'C', 'D', 'E', 'F', 'G', 'H', 'I', 'J', 'K', 'L', 'M',
   'N', 'O', 'P', 'Q', 'R', 'S', 'T', 'U', 'V', 'W', 'X', 'Y', 'Z']

/-- Check that no two consecutive trace events are both calls, meaning a
delay separates every pair of consecutive API calls. -/
def delayBetweenCalls : List Ev → Bool
  | Ev.call :: Ev.call :: _ => false
  | _ :: rest => delayBetweenCalls rest
  | [] => true

/-- C8 counterexample: the A-Z roster loop issues its 26 calls
back-to-back with no delay between any pair of consecutive calls. -/
theorem c8_counterexample :
    delayBetweenCalls (get_all_companies_trace asciiUppercase) = false := by
  rfl

/-- C8 (amended): the per-company detail loop inserts the fixed delay
between every pair of consecutive calls regardless of each outcome, but
the per-letter roster loop inserts no delay at all — its trace is calls
only, for any letter list. -/
theorem c8_delay_between_calls (d : ℚ) (xs : List (PyCompany × FetchResult)) (ls : List Char) :
    delayBetweenCalls (analyze_companies_trace d xs) = true ∧
    (get_all_companies_trace ls).all isCall = true := by
  constructor
  · induction xs with
    | nil => rfl
    | cons x rest ih =>
      cases rest with
      | nil => rfl
      | cons y rest2 =>
        simp only [analyze_companies_trace, delayBetweenCalls]
        exact ih
  · simp [get_all_companies_trace, isCall]

/-- Roster row returned by the alphabetical endpoint. -/
structure CompanyRow where
  symbol : Option String
  name : Option String
  lastTradedTime : Option Int
deriving DecidableEq, Repr

/-- Decoded body of one per-letter response: a dict wrapping the list
under reqAlphabetical, a bare list, or some other shape yielding no
companies. -/
inductive AlphaPayload where
  | nested (cs : List CompanyRow)
  | bare (cs : List CompanyRow)
  | other
deriving DecidableEq, Repr

/-- Outcome of one per-letter request made by `get_all_companies`. -/
inductive LetterResult where
  | ok (p : AlphaPayload)
  | fail (err : String)
deriving DecidableEq, Repr

/-- Failure entry appended to `failed_requests` in `get_all_companies`. -/
structure LetterFailure where
  letter : Char
  error : String
deriving DecidableEq, Repr

/-- Companies extracted from one successful payload, per the shape
handling in `get_all_companies`. -/
def companiesOf : AlphaPayload → List CompanyRow
  | AlphaPayload.nested cs => cs
  | AlphaPayload.bare cs => cs
  | AlphaPayload.other => []

/-- Result dict returned by `get_all_companies`. -/
structure AllCompaniesResult where
  success : Bool
  total_companies : ℕ
  active_companies : ℕ
  data : List CompanyRow × List CompanyRow
  failed_requests : List LetterFailure
  status_code : ℕ
deriving DecidableEq, Repr

/-- Accumulation loop of `get_all_companies`: successes extend the
company list, failures append a LetterFailure, and the loop continues
over every letter. -/
def gatherCompanies : List (Char × LetterResult) → List CompanyRow × List LetterFailure
  | [] => ([], [])
  | (l, r) :: rest =>
    let acc := gatherCompanies rest
    match r with
    | LetterResult.ok p => (companiesOf p ++ acc.1, acc.2)
    | LetterResult.fail e => (acc.1, { letter := l, error := e } :: acc.2)

/-- Embedding of `CSE_API.get_all_companies`: after the per-letter loop
the function unconditionally returns success True with status 200; the
data field is the pair of the full list and the active sublist, where
active keeps exactly the rows whose lastTradedTime is not None. -/
def get_all_companies (resps : List (Char × LetterResult)) : AllCompaniesResult :=
  let acc := gatherCompanies resps
  let active_companies := acc.1.filter (fun c => c.lastTradedTime.isSome)
  { success := true
    total_companies := acc.1.length
    active_companies := active_companies.length
    data := (acc.1, active_companies)
    failed_requests := acc.2
    status_code := 200 }

/-- Failure side of the accumulation loop: exactly one LetterFailure per
failed letter, in order, carrying that letter and its error. -/
theorem gatherCompanies_snd (resps : List (Char × LetterResult)) :
    (gatherCompanies resps).2 = resps.filterMap (fun lr =>
      match lr.2 with
      | LetterResult.fail e => some { letter := lr.1, error := e }
      | LetterResult.ok _ => none) := by
  induction resps with
  | nil => rfl
  | cons x rest ih =>
    obtain ⟨l, r⟩ := x
    cases r <;> simp [gatherCompanies, ih]

/-- C10: whatever the 26 per-letter outcomes are — all failing included —
`get_all_companies` reports success True with status 200; per-letter
failures appear only in failed_requests (one entry per failed letter, in
order, with its letter and error); data is the pair of the full list and
its sublist of rows with a present lastTradedTime, and the two counts
match the two lists. -/
theorem c10_get_all_companies (resps : List (Char × LetterResult)) :
    (get_all_companies resps).success = true ∧
    (get_all_companies resps).status_code = 200 ∧
    (get_all_companies resps).data.2 =
      (get_all_companies resps).data.1.filter (fun c => c.lastTradedTime.isSome) ∧
    (get_all_companies resps).failed_requests =
      resps.filterMap (fun lr =>
        match lr.2 with
        | LetterResult.fail e => some { letter := lr.1, error := e }
        | LetterResult.ok _ => none) ∧
    (get_all_companies resps).total_companies = (get_all_companies resps).data.1.length ∧
    (get_all_companies resps).active_companies = (get_all_companies resps).data.2.length := by
  refine ⟨rfl, rfl, rfl, ?_, rfl, rfl⟩
  simpa [get_all_companies] using gatherCompanies_snd resps
